import Mathlib

/-
Shallow embedding of the pytest_logger repository
(src/pytest_logger/logger/logger.py and src/pytest_logger/plugin.py).

Modelling conventions:
  * Python ints are Nat (all severity ranks are small non-negative ints).
  * Color escape strings from the `colored` package are opaque string tags.
  * A `logging.Handler` is a `Handler` record; the Python handler object
    identity (used by `Logger.addHandler`'s membership test and by the
    aliasing between `TestLogger.__term_handler` and the entry inside
    `Logger.handlers`) is modelled by a fresh numeric id `hid` drawn from
    the counter `nextId`.  `addHandler` on a freshly constructed handler
    always appends, because a fresh Python object is never identical to a
    stored one.
  * Operations that can raise a Python exception return `Except PyErr _`.
  * File-system side effects of `init_setup_logger` are recorded as an
    `Effect` trace instead of being performed.
-/

namespace PytestLogger

structure LevelInfo where
  level : Nat
  color : String
deriving DecidableEq, Repr

/-- The `levels` table of logger.py lines 18-28.  Standard `logging` ranks:
DEBUG=10, INFO=20, WARNING=30, ERROR=40, CRITICAL=50.  Color tags stand for
the `colored` escape sequences. -/
def levels : List (String × LevelInfo) :=
  [ ("debug",    ⟨10, "CYAN"⟩),
    ("info",     ⟨20, "WHITE"⟩),
    ("warning",  ⟨30, "YELLOW"⟩),
    ("error",    ⟨40, "RED"⟩),
    ("critical", ⟨50, "RED"⟩),
    ("step",     ⟨21, "WHITE"⟩),
    ("substep",  ⟨22, "LIGHT_GRAY"⟩),
    ("pass",     ⟨23, "GREEN"⟩),
    ("fail",     ⟨31, "RED"⟩) ]

/-- Python dict access `levels[name]["level"]` for a name present in the
table (every call site uses a literal key that is present). -/
def level_rank (name : String) : Nat :=
  (((levels.find? (fun p => p.1 == name)).map (fun p => p.2.level))).getD 0

/-- Python dict access `levels[name]`, the whole per-level dict. -/
def level_entry (name : String) : LevelInfo :=
  ((levels.find? (fun p => p.1 == name)).map (fun p => p.2)).getD ⟨0, ""⟩

/-- Reverse lookup `levels_by_value.get(rank)` built by the comprehension at
logger.py line 31.  A Python dict comprehension lets a later duplicate key
overwrite an earlier one, so lookup is modelled by scanning the reversed
list (for the actual table all ranks are distinct, so this matters not). -/
def rank_to_name (rank : Nat) : Option String :=
  ((levels.reverse.find? (fun p => p.2.level == rank)).map (fun p => p.1))

/-- Opaque tag for the style-reset escape `st.RESET` (`ColorFormatter.RESET`). -/
def RESET : String := "STYLE_RESET"

/-- `ColorFormatter.__get_level_by_value` (logger.py lines 55-57): returns the
(name, entry) pair when the rank is registered, `(None, None)` otherwise. -/
def get_level_by_value (rank : Nat) : Option String × Option LevelInfo :=
  match rank_to_name rank with
  | some key => (some key, some (level_entry key))
  | none => (none, none)

/-- `ColorFormatter.format` (logger.py lines 59-72) applied to the line that
`super().format(record)` already rendered: chooses the color by reverse rank
lookup (neutral `RESET` when the rank is unregistered), indents substep lines
by three spaces, and wraps the line in color then reset. -/
def ColorFormatter.format (rank : Nat) (line : String) : String :=
  let ki := get_level_by_value rank
  let color := match ki.2 with
    | some info => info.color
    | none => RESET
  let line := if ki.1 == some "substep" then "   " ++ line else line
  color ++ line ++ RESET

/-- Kinds of destinations the repository actually attaches: the terminal
stream handler and a setup-phase file handler (no code path creates the
declared call/steps/combined file handlers). -/
inductive HKind
  | term
  | setupFile (path : String)
deriving DecidableEq, Repr

/-- Errors the embedded Python code can raise. -/
inductive PyErr
  | attributeError (msg : String)
  | typeError (msg : String)
deriving DecidableEq, Repr

/-- File-system side effects of attaching a file destination. -/
inductive Effect
  | ensureParents (path : String)
  | openAppend (path : String)
deriving DecidableEq, Repr

/-- A `logging.Handler` attached to the logger: its threshold (`setLevel`),
its kind, its format template, and the identity tag `hid`. -/
structure Handler where
  hid : Nat
  kind : HKind
  level : Nat
  fmt : String
deriving DecidableEq, Repr

/-- The underlying `logging.Logger` named "test_logger": its own level and
its handler list. -/
structure PLogger where
  level : Nat
  handlers : List Handler
deriving DecidableEq, Repr

/-- A record passed to the handlers: numeric level, rendered message body and
the `extra` step tag. -/
structure Record where
  levelno : Nat
  msg : String
  tag : String
deriving DecidableEq, Repr

/-- `TestLogger.__init__` state (logger.py lines 77-129).  `nextId` is the
fresh-identity counter for newly constructed handler objects. -/
structure TestLogger where
  plogger : PLogger
  call_file_handler : Option Nat
  setup_file_handler : Option Nat
  term_handler : Option Nat
  steps_file_handler : Option Nat
  combined_file_handler : Option Nat
  term_format : String
  setup_format : String
  term_config_loglevel : Nat
  term_setup_loglevel : Nat
  term_call_loglevel : Nat
  setup_file_loglevel : Nat
  call_file_loglevel : Nat
  stepn : Nat
  substepn : Nat
  nextId : Nat
deriving DecidableEq, Repr

/-- The module-level `log = TestLogger()` (logger.py line 296): a fresh
process gives an empty handler list; the logger level is set to
`levels['info']['level']`; every kwarg takes its default. -/
def log : TestLogger :=
  { plogger := { level := level_rank "info", handlers := [] }
  , call_file_handler := none
  , setup_file_handler := none
  , term_handler := none
  , steps_file_handler := none
  , combined_file_handler := none
  , term_format := "[%(levelname)s%(step)s] - %(message)s"
  , setup_format := "[%(levelname)s%(step)s] - %(message)s"
  , term_config_loglevel := level_rank "info"
  , term_setup_loglevel := level_rank "info"
  , term_call_loglevel := level_rank "info"
  , setup_file_loglevel := level_rank "info"
  , call_file_loglevel := level_rank "info"
  , stepn := 0
  , substepn := 0
  , nextId := 0 }

/-- `Logger.callHandlers`: every handler of this logger whose threshold is at
or below the record's level receives the record.  (Propagation to the root
logger is not modelled: the attached destinations of the router are exactly
this logger's handlers, and the root logger holds none of them.) -/
def callHandlers (lg : PLogger) (r : Record) : List (Handler × Record) :=
  (lg.handlers.filter (fun h => h.level ≤ r.levelno)).map (fun h => (h, r))

/-- A public leveled method of `logging.Logger` (`debug`/`info`/`warning`/
`error`): it first checks `isEnabledFor(rank)`, i.e. rank ≥ the logger's own
effective level, and only then builds a record and dispatches it. -/
def PLogger.log_public (lg : PLogger) (rank : Nat) (msg tag : String) :
    List (Handler × Record) :=
  if lg.level ≤ rank then callHandlers lg ⟨rank, msg, tag⟩ else []

/-- The first argument the repository passes to `Logger._log`: either an int
rank (as `fail`/`step`/`substep` do) or the whole per-level dict (as `passed`
does at logger.py line 268). -/
inductive LevelArg
  | rank (n : Nat)
  | table (entry : LevelInfo)
deriving DecidableEq, Repr

/-- `Logger._log(level, msg, ())`: builds a `LogRecord`, whose constructor
calls `getLevelName(level)`, i.e. `_levelToName.get(level)`.  A dict argument
is unhashable, so CPython raises `TypeError` there, before any handler runs;
an int argument dispatches to the handlers with no logger-level check. -/
def PLogger.log_raw (lg : PLogger) (lv : LevelArg) (msg tag : String) :
    Except PyErr (List (Handler × Record)) :=
  match lv with
  | .rank n => .ok (callHandlers lg ⟨n, msg, tag⟩)
  | .table _ => .error (.typeError "unhashable type: dict")

/-- Python attribute assignment `self.stepn = v`: `stepn` is declared at
logger.py lines 159-161 as a read-only `@property` with no setter, so CPython
raises `AttributeError` on any assignment through it. -/
def TestLogger.set_stepn (_tl : TestLogger) (_v : Nat) : Except PyErr TestLogger :=
  .error (.attributeError "property stepn of TestLogger object has no setter")

/-- Python attribute assignment `self.substepn = v`: `substepn` (logger.py
lines 163-165) is likewise a getter-only property. -/
def TestLogger.set_substepn (_tl : TestLogger) (_v : Nat) : Except PyErr TestLogger :=
  .error (.attributeError "property substepn of TestLogger object has no setter")

/-- `TestLogger.init_term_handler` (logger.py lines 180-197): optionally
overrides the config-phase threshold and the terminal format, constructs a
fresh `StreamHandler` at the config-phase threshold, and adds it to the
logger.  Nothing removes a previously attached terminal handler: the fresh
object is appended next to it. -/
def TestLogger.init_term_handler (tl : TestLogger)
    (level : Option Nat) (fmt : Option String) : TestLogger :=
  let tl := match level with
    | some l => { tl with term_config_loglevel := l }
    | none => tl
  let tl := match fmt with
    | some f => { tl with term_format := f }
    | none => tl
  let h : Handler :=
    { hid := tl.nextId, kind := .term, level := tl.term_config_loglevel
    , fmt := tl.term_format }
  { tl with
      term_handler := some h.hid
    , plogger := { tl.plogger with handlers := tl.plogger.handlers ++ [h] }
    , nextId := tl.nextId + 1 }

/-- `TestLogger.init_setup_logger` (logger.py lines 200-222): optionally
overrides the setup-file threshold and format, ensures the parent directories
of `path` exist (`__ensure_path`, `mkdir(parents=True, exist_ok=True)`),
opens the file append-or-create (`logging.FileHandler`), and adds the fresh
handler to the logger.  Nothing removes a previously attached setup handler:
only the `setup_file_handler` reference is replaced. -/
def TestLogger.init_setup_logger (tl : TestLogger) (path : String)
    (level : Option Nat) (fmt : Option String) : TestLogger × List Effect :=
  let tl := match level with
    | some l => { tl with setup_file_loglevel := l }
    | none => tl
  let tl := match fmt with
    | some f => { tl with setup_format := f }
    | none => tl
  let h : Handler :=
    { hid := tl.nextId, kind := .setupFile path, level := tl.setup_file_loglevel
    , fmt := tl.setup_format }
  ( { tl with
        setup_file_handler := some h.hid
      , plogger := { tl.plogger with handlers := tl.plogger.handlers ++ [h] }
      , nextId := tl.nextId + 1 }
  , [Effect.ensureParents path, Effect.openAppend path] )

/-- `TestLogger.configure_term_logger_setup` (logger.py lines 224-225):
`self.__term_handler.setLevel(self.__term_setup_loglevel)`.  When no terminal
handler was ever attached the field is `None` and the attribute access raises
`AttributeError`; otherwise the aliased handler object inside the logger's
handler list is mutated. -/
def TestLogger.configure_term_logger_setup (tl : TestLogger) :
    Except PyErr TestLogger :=
  match tl.term_handler with
  | none => .error (.attributeError "NoneType object has no attribute setLevel")
  | some hid =>
      let hs := tl.plogger.handlers.map
        (fun h => if h.hid = hid then { h with level := tl.term_setup_loglevel } else h)
      .ok { tl with plogger := { tl.plogger with handlers := hs } }

/-- `TestLogger.configure_term_logger_call` (logger.py lines 227-228): same as
the setup variant but with the call-phase threshold. -/
def TestLogger.configure_term_logger_call (tl : TestLogger) :
    Except PyErr TestLogger :=
  match tl.term_handler with
  | none => .error (.attributeError "NoneType object has no attribute setLevel")
  | some hid =>
      let hs := tl.plogger.handlers.map
        (fun h => if h.hid = hid then { h with level := tl.term_call_loglevel } else h)
      .ok { tl with plogger := { tl.plogger with handlers := hs } }

/-- Message body `sep.join(str(a) for a in args) + end`. -/
def joinParts (parts : List String) (sep e : String) : String :=
  String.intercalate sep parts ++ e

/-- `TestLogger.debug` (logger.py lines 232-237): empty `extra` step tag, and
a silent no-op when disabled or called with no parts. -/
def TestLogger.debug (tl : TestLogger) (parts : List String)
    (sep e : String) (enable : Bool) : TestLogger × List (Handler × Record) :=
  if enable && !parts.isEmpty then
    (tl, tl.plogger.log_public (level_rank "debug") (joinParts parts sep e) "")
  else (tl, [])

/-- `TestLogger.info` (logger.py lines 239-245). -/
def TestLogger.info (tl : TestLogger) (parts : List String)
    (sep e : String) (enable : Bool) : TestLogger × List (Handler × Record) :=
  if enable && !parts.isEmpty then
    (tl, tl.plogger.log_public (level_rank "info") (joinParts parts sep e) "")
  else (tl, [])

/-- `TestLogger.warning` (logger.py lines 247-252). -/
def TestLogger.warning (tl : TestLogger) (parts : List String)
    (sep e : String) (enable : Bool) : TestLogger × List (Handler × Record) :=
  if enable && !parts.isEmpty then
    (tl, tl.plogger.log_public (level_rank "warning") (joinParts parts sep e) "")
  else (tl, [])

/-- `TestLogger.error` (logger.py lines 254-260). -/
def TestLogger.error (tl : TestLogger) (parts : List String)
    (sep e : String) (enable : Bool) : TestLogger × List (Handler × Record) :=
  if enable && !parts.isEmpty then
    (tl, tl.plogger.log_public (level_rank "error") (joinParts parts sep e) "")
  else (tl, [])

/-- `TestLogger.passed` (logger.py lines 262-268): forwards the WHOLE dict
`levels["pass"]` as the level argument of `Logger._log`, not the int rank. -/
def TestLogger.passed (tl : TestLogger) (parts : List String)
    (sep e : String) (enable : Bool) :
    Except PyErr (TestLogger × List (Handler × Record)) :=
  if enable && !parts.isEmpty then do
    let ws ← tl.plogger.log_raw (.table (level_entry "pass")) (joinParts parts sep e) ""
    pure (tl, ws)
  else pure (tl, [])

/-- `TestLogger.fail` (logger.py lines 270-275): forwards the int rank
`levels["fail"]["level"]` to `Logger._log`. -/
def TestLogger.fail (tl : TestLogger) (parts : List String)
    (sep e : String) (enable : Bool) :
    Except PyErr (TestLogger × List (Handler × Record)) :=
  if enable && !parts.isEmpty then do
    let ws ← tl.plogger.log_raw (.rank (level_rank "fail")) (joinParts parts sep e) ""
    pure (tl, ws)
  else pure (tl, [])

/-- `TestLogger.step` (logger.py lines 277-285), statement by statement:
`self.stepn += 1` reads the getter then assigns through the setter-less
property (raising), then `self.substepn = 0`, then the `extra` tag
`" n"`, then the guarded `_log` at the step rank. -/
def TestLogger.step (tl : TestLogger) (parts : List String)
    (sep e : String) (enable : Bool) :
    Except PyErr (TestLogger × List (Handler × Record)) := do
  let tl ← tl.set_stepn (tl.stepn + 1)
  let tl ← tl.set_substepn 0
  let tag := " " ++ toString tl.stepn
  if enable && !parts.isEmpty then do
    let ws ← tl.plogger.log_raw (.rank (level_rank "step")) (joinParts parts sep e) tag
    pure (tl, ws)
  else pure (tl, [])

/-- `TestLogger.substep` (logger.py lines 287-293): `self.substepn += 1`
(raising for the same reason), the `" n.m"` tag, then the guarded `_log`
at the substep rank. -/
def TestLogger.substep (tl : TestLogger) (parts : List String)
    (sep e : String) (enable : Bool) :
    Except PyErr (TestLogger × List (Handler × Record)) := do
  let tl ← tl.set_substepn (tl.substepn + 1)
  let tag := " " ++ toString tl.stepn ++ "." ++ toString tl.substepn
  if enable && !parts.isEmpty then do
    let ws ← tl.plogger.log_raw (.rank (level_rank "substep")) (joinParts parts sep e) tag
    pure (tl, ws)
  else pure (tl, [])

/-- Whether a handler is a terminal destination. -/
def HKind.isTerm : HKind → Bool
  | .term => true
  | .setupFile _ => false

/-- Whether a handler is a setup-file destination. -/
def HKind.isSetupFile : HKind → Bool
  | .term => false
  | .setupFile _ => true

/-- Number of terminal destinations currently attached to the router. -/
def termCount (tl : TestLogger) : Nat :=
  tl.plogger.handlers.countP (fun h => h.kind.isTerm)

/-- Number of setup-file destinations currently attached to the router. -/
def setupCount (tl : TestLogger) : Nat :=
  tl.plogger.handlers.countP (fun h => h.kind.isSetupFile)

/-- Python substring test `needle in hay`. -/
def strContains (needle hay : String) : Bool :=
  (List.range (hay.toList.length + 1)).any
    (fun i => needle.toList.isPrefixOf (hay.toList.drop i))

/-- The normalisation of plugin.py line 18: lowercase, then drop spaces,
hyphens and underscores.  (`Char.toLower` covers the ASCII range, which is
all the table's keys and the CLI's choices use.) -/
def normalize (s : String) : String :=
  String.mk ((s.toList.map Char.toLower).filter
    (fun c => !(c == ' ' || c == '-' || c == '_')))

/-- `__map_correct_level` (plugin.py lines 17-25): normalise the name, snap
it to the first registry key containing it as a substring, then look the key
up, falling back to `levels['info']['level']` when nothing matched. -/
def map_correct_level (raw : String) : Nat :=
  let ln := normalize raw
  let ln := match levels.find? (fun p => strContains ln p.1) with
    | some p => p.1
    | none => ln
  (((levels.find? (fun p => p.1 == ln)).map (fun p => p.2.level))).getD
    (level_rank "info")

/-! Shared helper lemmas. -/

theorem isPrefixOf_self {α : Type} [BEq α] [LawfulBEq α] (l : List α) :
    l.isPrefixOf l = true := by
  induction l with
  | nil => rfl
  | cons a as ih => simp [List.isPrefixOf, ih]

theorem strContains_self (s : String) : strContains s s = true := by
  unfold strContains
  rw [List.any_eq_true]
  refine ⟨0, List.mem_range.mpr (Nat.succ_pos _), ?_⟩
  simp [isPrefixOf_self]

theorem mem_callHandlers (lg : PLogger) (hd : Handler) (r : Record)
    (hmem : hd ∈ lg.handlers) :
    (∃ rec, (hd, rec) ∈ callHandlers lg r) ↔ hd.level ≤ r.levelno := by
  simp only [callHandlers, List.mem_map, List.mem_filter, Prod.ext_iff,
    decide_eq_true_eq]
  constructor
  · rintro ⟨rec, a, ⟨_, hle⟩, ha, _⟩
    rw [ha] at hle
    exact hle
  · intro hle
    exact ⟨r, hd, ⟨hmem, hle⟩, rfl, rfl⟩

theorem mem_log_public (lg : PLogger) (hd : Handler) (n : Nat) (msg tag : String)
    (hmem : hd ∈ lg.handlers) :
    (∃ rec, (hd, rec) ∈ lg.log_public n msg tag) ↔ (hd.level ≤ n ∧ lg.level ≤ n) := by
  unfold PLogger.log_public
  by_cases hl : lg.level ≤ n
  · rw [if_pos hl, mem_callHandlers lg hd _ hmem]
    simp [hl]
  · simp [if_neg hl, hl]

/-! Claim theorems. -/

/-- C1: the spec says the call sequence step("a"), substep("b"), substep("c"),
step("d") on a fresh router yields the step tags " 1", " 1.1", " 1.2", " 2";
the code instead raises AttributeError on the very first statement of `step`
(`self.stepn += 1` assigns through the setter-less property), so the sequence
produces no record at all.  This theorem evaluates the code at the failing
input. -/
theorem C1_step_raises_on_fresh_router :
    log.step ["a"] " " "" true =
      Except.error
        (PyErr.attributeError "property stepn of TestLogger object has no setter") :=
  rfl

/-- C2 counterexample: attaching the terminal twice leaves TWO terminal
destinations attached, and a subsequent info call produces TWO terminal
writes, refuting idempotent-by-replacement at this concrete input. -/
theorem C2_counterexample :
    termCount ((log.init_term_handler none none).init_term_handler none none) = 2 ∧
    (((log.init_term_handler none none).init_term_handler none none).info
        ["x"] " " "" true).2.countP (fun w => w.1.kind.isTerm) = 2 :=
  ⟨rfl, rfl⟩

/-- C2 amended: `init_term_handler` appends a fresh terminal handler without
detaching the previous one; only the router's `term_handler` reference is
replaced, and the attached terminal count always grows by one. -/
theorem C2_amended (tl : TestLogger) (level : Option Nat) (fmt : Option String) :
    ∃ h : Handler, h.kind = HKind.term ∧
      (tl.init_term_handler level fmt).plogger.handlers = tl.plogger.handlers ++ [h] ∧
      (tl.init_term_handler level fmt).term_handler = some h.hid ∧
      termCount (tl.init_term_handler level fmt) = termCount tl + 1 := by
  cases level <;> cases fmt <;>
    exact ⟨_, rfl, rfl, rfl, by
      simp [termCount, TestLogger.init_term_handler, List.countP_append,
        List.countP_cons, HKind.isTerm]⟩

/-- C3 counterexample: a terminal destination attached with minimum rank 10
(the debug rank), and a debug call at rank 10 with non-empty parts and
enabled, produces zero writes: the logger's own level (fixed at the info
rank by `__init__`) filters the record out first, refuting "written iff
r ≥ R independently of the router's other configuration". -/
theorem C3_counterexample :
    ((log.init_term_handler (some (level_rank "debug")) none).plogger.handlers.map
        (fun h => h.level)) = [level_rank "debug"] ∧
    ((log.init_term_handler (some (level_rank "debug")) none).debug
        ["x"] " " "" true).2 = [] :=
  ⟨rfl, rfl⟩

/-- C3 amended: a destination with minimum rank R receives a leveled call at
rank r iff r ≥ R AND, for the methods routed through the public logging API
(debug/info/warning/error), additionally r ≥ the router's own logger level;
`fail`, which calls `Logger._log` directly, bypasses the logger-level check
and is written iff r ≥ R alone. -/
theorem C3_amended (tl : TestLogger) (parts : List String) (sep e : String)
    (hd : Handler) (hmem : hd ∈ tl.plogger.handlers) (hp : parts ≠ []) :
    ((∃ rec, (hd, rec) ∈ (tl.debug parts sep e true).2) ↔
        (hd.level ≤ level_rank "debug" ∧ tl.plogger.level ≤ level_rank "debug")) ∧
    ((∃ rec, (hd, rec) ∈ (tl.info parts sep e true).2) ↔
        (hd.level ≤ level_rank "info" ∧ tl.plogger.level ≤ level_rank "info")) ∧
    ((∃ rec, (hd, rec) ∈ (tl.warning parts sep e true).2) ↔
        (hd.level ≤ level_rank "warning" ∧ tl.plogger.level ≤ level_rank "warning")) ∧
    ((∃ rec, (hd, rec) ∈ (tl.error parts sep e true).2) ↔
        (hd.level ≤ level_rank "error" ∧ tl.plogger.level ≤ level_rank "error")) ∧
    ((∃ p, tl.fail parts sep e true = Except.ok p ∧ ∃ rec, (hd, rec) ∈ p.2) ↔
        hd.level ≤ level_rank "fail") := by
  cases parts with
  | nil => exact absurd rfl hp
  | cons a as =>
    refine ⟨?_, ?_, ?_, ?_, ?_⟩
    · exact mem_log_public tl.plogger hd (level_rank "debug")
        (joinParts (a :: as) sep e) "" hmem
    · exact mem_log_public tl.plogger hd (level_rank "info")
        (joinParts (a :: as) sep e) "" hmem
    · exact mem_log_public tl.plogger hd (level_rank "warning")
        (joinParts (a :: as) sep e) "" hmem
    · exact mem_log_public tl.plogger hd (level_rank "error")
        (joinParts (a :: as) sep e) "" hmem
    · have e5 : tl.fail (a :: as) sep e true =
          Except.ok (tl, callHandlers tl.plogger
            ⟨level_rank "fail", joinParts (a :: as) sep e, ""⟩) := rfl
      rw [e5]
      simp only [Except.ok.injEq]
      constructor
      · rintro ⟨p, hp2, rec, hmem2⟩
        rw [← hp2] at hmem2
        exact (mem_callHandlers tl.plogger hd _ hmem).mp ⟨rec, hmem2⟩
      · intro hle
        obtain ⟨rec, hrec⟩ := (mem_callHandlers tl.plogger hd
          ⟨level_rank "fail", joinParts (a :: as) sep e, ""⟩ hmem).mpr hle
        exact ⟨_, rfl, rec, hrec⟩

/-- C3 amended, witness: the info clause instantiated on a router with one
terminal destination at the default info threshold. -/
theorem C3_amended_witness :
    (∃ rec, ((⟨0, HKind.term, 20, "[%(levelname)s%(step)s] - %(message)s"⟩ : Handler), rec) ∈
        ((log.init_term_handler none none).info ["x"] " " "" true).2) ↔
      ((20 : Nat) ≤ level_rank "info" ∧
        (log.init_term_handler none none).plogger.level ≤ level_rank "info") :=
  (C3_amended (log.init_term_handler none none) ["x"] " " ""
    ⟨0, HKind.term, 20, "[%(levelname)s%(step)s] - %(message)s"⟩
    (by decide) (by decide)).2.1

/-- C4 counterexample: attaching the setup file destination twice leaves TWO
setup-file destinations attached, refuting replacement at this input. -/
theorem C4_counterexample :
    setupCount (((log.init_setup_logger "./reports/t_setup.log" none none).1.init_setup_logger
        "./reports/t_setup.log" none none).1) = 2 :=
  rfl

/-- C4 amended: `init_setup_logger` ensures the parent directories of the
path, opens the file append-or-create, and appends a fresh setup-file
handler, updating the setup-role reference but NOT detaching the previous
setup destination: the attached setup-file count always grows by one. -/
theorem C4_amended (tl : TestLogger) (path : String)
    (level : Option Nat) (fmt : Option String) :
    (tl.init_setup_logger path level fmt).2 =
        [Effect.ensureParents path, Effect.openAppend path] ∧
    ∃ h : Handler, h.kind = HKind.setupFile path ∧
      ((tl.init_setup_logger path level fmt).1).plogger.handlers =
          tl.plogger.handlers ++ [h] ∧
      ((tl.init_setup_logger path level fmt).1).setup_file_handler = some h.hid ∧
      setupCount (tl.init_setup_logger path level fmt).1 = setupCount tl + 1 := by
  cases level <;> cases fmt <;>
    exact ⟨rfl, _, rfl, rfl, rfl, by
      simp [setupCount, TestLogger.init_setup_logger, List.countP_append,
        List.countP_cons, HKind.isSetupFile]⟩

/-- C5 counterexample: the claim places step/substep/pass strictly between
the "warning" and "critical" ranks and fail strictly above "critical"; in the
table warning is 30 and critical is 50, so 21/22/23 are below warning and 31
is below critical. -/
theorem C5_counterexample :
    ¬ (level_rank "step" = 21 ∧ level_rank "substep" = 22 ∧
       level_rank "pass" = 23 ∧ level_rank "fail" = 31 ∧
       level_rank "warning" < level_rank "step" ∧
       level_rank "pass" < level_rank "critical" ∧
       level_rank "critical" < level_rank "fail") := by
  decide

/-- C5 amended: step=21, substep=22, pass=23 sit strictly between the "info"
rank and the "warning" rank, and fail=31 sits strictly above the "warning"
rank (and strictly below "error" and "critical"). -/
theorem C5_amended :
    level_rank "step" = 21 ∧ level_rank "substep" = 22 ∧
    level_rank "pass" = 23 ∧ level_rank "fail" = 31 ∧
    level_rank "info" < level_rank "step" ∧
    level_rank "step" < level_rank "substep" ∧
    level_rank "substep" < level_rank "pass" ∧
    level_rank "pass" < level_rank "warning" ∧
    level_rank "warning" < level_rank "fail" ∧
    level_rank "fail" < level_rank "error" ∧
    level_rank "fail" < level_rank "critical" := by
  decide

/-- C6: the nine-entry severity table maps no two distinct names to the same
rank, and for any rank owned by no level the reverse lookup returns none and
the color formatter falls back to the neutral reset style. -/
theorem C6_rank_bijection_and_unknown_rank :
    (levels.length = 9 ∧
      ∀ p ∈ levels, ∀ q ∈ levels, p.2.level = q.2.level → p.1 = q.1) ∧
    (∀ rank : Nat, (∀ p ∈ levels, p.2.level ≠ rank) →
      rank_to_name rank = none ∧
      ∀ line, ColorFormatter.format rank line = RESET ++ line ++ RESET) := by
  refine ⟨⟨rfl, by decide⟩, ?_⟩
  intro rank h
  have hfind : levels.reverse.find? (fun p => p.2.level == rank) = none := by
    rw [List.find?_eq_none]
    intro p hp
    simp only [beq_iff_eq]
    exact h p (List.mem_reverse.mp hp)
  have hn : rank_to_name rank = none := by
    unfold rank_to_name
    rw [hfind]
    rfl
  refine ⟨hn, fun line => ?_⟩
  unfold ColorFormatter.format get_level_by_value
  rw [hn]
  rfl

/-- C6 witness: rank 99 belongs to no level. -/
theorem C6_rank_bijection_and_unknown_rank_witness :
    rank_to_name 99 = none ∧
    ColorFormatter.format 99 "msg" = RESET ++ "msg" ++ RESET := by
  have h := C6_rank_bijection_and_unknown_rank.2 99 (by decide)
  exact ⟨h.1, h.2 "msg"⟩

/-- C7 counterexample: on the freshly constructed router (no terminal ever
attached) both phase-threshold setters raise AttributeError instead of being
a silent no-op. -/
theorem C7_counterexample :
    log.configure_term_logger_setup =
      Except.error (PyErr.attributeError "NoneType object has no attribute setLevel") ∧
    log.configure_term_logger_call =
      Except.error (PyErr.attributeError "NoneType object has no attribute setLevel") :=
  ⟨rfl, rfl⟩

/-- C7 amended: when no terminal destination is attached,
`configure_term_logger_setup` and `configure_term_logger_call` raise
AttributeError (None has no setLevel) rather than degrading to a no-op. -/
theorem C7_amended (tl : TestLogger) (h : tl.term_handler = none) :
    tl.configure_term_logger_setup =
      Except.error (PyErr.attributeError "NoneType object has no attribute setLevel") ∧
    tl.configure_term_logger_call =
      Except.error (PyErr.attributeError "NoneType object has no attribute setLevel") := by
  unfold TestLogger.configure_term_logger_setup TestLogger.configure_term_logger_call
  rw [h]
  exact ⟨rfl, rfl⟩

/-- C7 amended, witness: the fresh router has no terminal attached. -/
theorem C7_amended_witness :
    log.configure_term_logger_setup =
      Except.error (PyErr.attributeError "NoneType object has no attribute setLevel") :=
  (C7_amended log rfl).1

/-- C8 counterexample: resolving the unknown severity name "bogus" does not
raise at all; `__map_correct_level` silently returns the default "info" rank
20, refuting "fails with UnknownLevelError and is never downgraded". -/
theorem C8_counterexample :
    map_correct_level "bogus" = level_rank "info" ∧ level_rank "info" = 20 := by
  decide

/-- C8 amended: any severity name whose normalisation is a substring of no
registry key resolves, without error, to the default "info" rank. -/
theorem C8_amended (s : String)
    (h : ∀ p ∈ levels, strContains (normalize s) p.1 = false) :
    map_correct_level s = level_rank "info" := by
  have h1 : levels.find? (fun p => strContains (normalize s) p.1) = none := by
    rw [List.find?_eq_none]
    intro p hp
    simp [h p hp]
  have h2 : levels.find? (fun p => p.1 == normalize s) = none := by
    rw [List.find?_eq_none]
    intro p hp
    simp only [beq_iff_eq]
    intro hEq
    have hc := h p hp
    rw [hEq] at hc
    rw [strContains_self] at hc
    exact absurd hc (by decide)
  simp only [map_correct_level]
  rw [h1, h2]
  rfl

/-- C8 amended, witness: "bogus" matches no registry key. -/
theorem C8_amended_witness : map_correct_level "bogus" = level_rank "info" :=
  C8_amended "bogus" (by decide)

/-- C9: every invocation of step or substep, with any arguments (including
enabled=false or empty parts), raises the attribute-assignment error from the
getter-only counter properties before any record can be produced. -/
theorem C9_step_substep_always_raise (tl : TestLogger) (parts : List String)
    (sep e : String) (enable : Bool) :
    tl.step parts sep e enable =
      Except.error
        (PyErr.attributeError "property stepn of TestLogger object has no setter") ∧
    tl.substep parts sep e enable =
      Except.error
        (PyErr.attributeError "property substepn of TestLogger object has no setter") :=
  ⟨rfl, rfl⟩

/-- C10: `passed` with non-empty parts and enabled forwards the whole
`levels["pass"]` dict to `Logger._log`, which raises TypeError (unhashable
dict) before any handler runs; `fail`, which forwards the int rank, returns
normally on the same input. -/
theorem C10_passed_raises (tl : TestLogger) (parts : List String) (sep e : String)
    (h : parts ≠ []) :
    tl.passed parts sep e true = Except.error (PyErr.typeError "unhashable type: dict") ∧
    ∃ p, tl.fail parts sep e true = Except.ok p := by
  cases parts with
  | nil => exact absurd rfl h
  | cons a as => exact ⟨rfl, _, rfl⟩

/-- C10 witness: a concrete one-part call on the fresh router. -/
theorem C10_passed_raises_witness :
    log.passed ["a"] " " "" true = Except.error (PyErr.typeError "unhashable type: dict") ∧
    ∃ p, log.fail ["a"] " " "" true = Except.ok p :=
  C10_passed_raises log ["a"] " " "" (List.cons_ne_nil "a" [])

end PytestLogger
